import Mathlib

/-!
Shallow embedding of `src/etl_components/connections.py`.

The module provides SQL dialect descriptors (`SQLFormat`), a dialect
resolver (`get_sql_format`), and two scoped connection wrappers
(`SQLiteCursor`, `PostgresCursor`).  Side effects on the underlying
database connection are modelled as explicit event traces (`DBEvent`),
and Python exceptions as values of `PyError`.  The process-wide
configuration mapping loaded by `dotenv_values(".env")` is modelled as
an explicit association list (`Config`) passed to the constructor that
reads it.
-/

/-- Verbatim template constant `SQLITE_INSERT_FORMAT` from the source. -/
def SQLITE_INSERT_FORMAT : String :=
  "\n    INSERT INTO <table> (<column1>, <column2>, ...)\n    VALUES (:<column1_source>, :<column2_source>, ...)\n"

/-- Verbatim pattern constant `SQLITE_VALUES_FORMAT` from the source: the raw string r":(\w+)". -/
def SQLITE_VALUES_FORMAT : String := ":(\\w+)"

/-- Verbatim template constant `POSTGRES_INSERT_FORMAT` from the source. -/
def POSTGRES_INSERT_FORMAT : String :=
  "\n    INSERT INTO <table> (<column1>, <column2>, ...)\n    VALUES (%(<column1_source>)s, %(<column2_source>)s, ...)\n"

/-- Verbatim pattern constant `POSTGRES_VALUES_FORMAT` from the source: the raw string r"%\((\w+)\)s". -/
def POSTGRES_VALUES_FORMAT : String := "%\\((\\w+)\\)s"

/-- Verbatim template constant `POSTGRES_COPY_FORMAT` from the source. -/
def POSTGRES_COPY_FORMAT : String :=
  "\n    COPY <table> (<column1_source>, <column2_source>, ...)\n(FROM is not necessary, this is taken care of for you 😊)\n"

/-- Verbatim template constant `RETRIEVE_FORMAT` from the source (shared by both dialects). -/
def RETRIEVE_FORMAT : String :=
  "\n    SELECT id as <table>_id, <column1> as <alias1>, <column2> FROM <table>\n"

/-- Verbatim template constant `COMPARE_FORMAT` from the source (shared by both dialects). -/
def COMPARE_FORMAT : String :=
  "\n    SELECT \n        <table>.<column> as <alias>,\n        <table>.<column>,\n        <column>,\n        ...\n    FROM <table>\n        JOIN <other_table> ON <other_table>.<table>_id = <table>.id\n        JOIN ...\n    ...\n"

/-- Verbatim sentinel constant `NO_COPY_FORMAT` from the source. -/
def NO_COPY_FORMAT : String := "COPY not available for this cursor."

/-- The dataclass `SQLFormat`: stores formats and patterns of SQL queries.
Field defaults mirror the dataclass defaults in the source. -/
structure SQLFormat where
  insert_format : String
  values_pattern : String
  copy_available : Bool
  copy_format : String
  retrieve_format : String := RETRIEVE_FORMAT
  compare_format : String := COMPARE_FORMAT
deriving DecidableEq

/-- The value constructed by the `SQLiteFormat` dataclass: its `__init__` calls
`super().__init__` with these fixed arguments. -/
def SQLiteFormat : SQLFormat :=
  { insert_format := SQLITE_INSERT_FORMAT
    values_pattern := SQLITE_VALUES_FORMAT
    copy_available := false
    copy_format := NO_COPY_FORMAT }

/-- The value constructed by the `PostgresFormat` dataclass: its `__init__` calls
`super().__init__` with these fixed arguments. -/
def PostgresFormat : SQLFormat :=
  { insert_format := POSTGRES_INSERT_FORMAT
    values_pattern := POSTGRES_VALUES_FORMAT
    copy_available := true
    copy_format := POSTGRES_COPY_FORMAT }

/-- Runtime type of a handle passed to `get_sql_format`.  The source's alias
`Cursor = sqlite3.Cursor | psycopg.Cursor` covers the first two cases only, but
at runtime any object can be passed; `otherHandle` models a handle of any other
runtime type, tagged with its type name. -/
inductive Cursor where
  | sqlite3Cursor
  | psycopgCursor
  | otherHandle (typeName : String)
deriving DecidableEq

/-- The resolver `get_sql_format`: the two `isinstance` checks, and the final
`return None` (an absent value, modelled as `none`) when neither matches. -/
def get_sql_format : Cursor → Option SQLFormat
  | Cursor.sqlite3Cursor => some SQLiteFormat
  | Cursor.psycopgCursor => some PostgresFormat
  | Cursor.otherHandle _ => none

/-- A Python exception value: `keyError k` is the `KeyError` raised by a dict
lookup `config[k]` on a missing key; `exc t m` is any other exception with type
name `t` and message `m`. -/
inductive PyError where
  | keyError (key : String)
  | exc (typeName : String) (message : String)
deriving DecidableEq

/-- One observable side effect on an underlying database connection.
`sqliteConnect db` is `sqlite3.connect(db)`; `setRowFactory` is the assignment
`connection.row_factory = _dict_row`; `pgConnect cred d` is
`psycopg.connect(cred, row_factory=dict_row)` (`d` records that the dict row
factory was requested); `cursor` is `connection.cursor()`; `commit`,
`rollback` and `close` are the corresponding connection methods. -/
inductive DBEvent where
  | sqliteConnect (db : String)
  | setRowFactory
  | pgConnect (credentials : String) (dictRows : Bool)
  | cursor
  | commit
  | rollback
  | close
deriving DecidableEq

/-- The configuration mapping produced by `dotenv_values(".env")`: a flat
key-value mapping (an empty list models a missing `.env` file). -/
abbrev Config := List (String × String)

/-- Dictionary lookup `cfg[key]`, returning `none` where Python would raise
`KeyError`. -/
def cfgLookup : Config → String → Option String
  | [], _ => none
  | (k, v) :: rest, key => if k = key then some v else cfgLookup rest key

/-- The five configuration keys read by `PostgresCursor.__init__`. -/
def requiredKeys : List String := ["HOST", "PORT", "DB", "USER", "PASSWORD"]

/-- The f-string assembling the credentials in `PostgresCursor.__init__`. -/
def credentialsString (database user password host port : String) : String :=
  s!"dbname={database} user={user} password={password} host={host} port={port}"

/-- The row factory `_dict_row`: converts a fetched row into a mapping from
column name to value by zipping the row's keys with its values. -/
def _dict_row (columns : List String) (row : List α) : List (String × α) :=
  columns.zip row

/-- `SQLiteCursor.__init__(db)`: defaults `db` to ":memory:" when `None`, calls
`sqlite3.connect(db)` and installs the `_dict_row` row factory.  Returns the
trace of connection events performed by the constructor. -/
def SQLiteCursor.init (db : Option String) : List DBEvent :=
  let db := match db with
    | none => ":memory:"
    | some d => d
  [DBEvent.sqliteConnect db, DBEvent.setRowFactory]

/-- `SQLiteCursor.__enter__`: calls `self.connection.cursor()` and returns the
cursor; no other connection event occurs. -/
def SQLiteCursor.enter : List DBEvent := [DBEvent.cursor]

/-- `SQLiteCursor.__exit__`: rolls back and closes when an exception is active,
otherwise commits and closes.  The second component is the truthiness of the
method's return value (`None`, hence `false`): Python re-raises the active
exception when `__exit__` returns a falsy value. -/
def SQLiteCursor.exit (exception : Option PyError) : List DBEvent × Bool :=
  if exception.isSome then
    ([DBEvent.rollback, DBEvent.close], false)
  else
    ([DBEvent.commit, DBEvent.close], false)

/-- `PostgresCursor.__init__()`: looks up the five required keys in the
configuration mapping in source order, then calls `psycopg.connect` with the
assembled credentials and the dict row factory.  Returns the trace of
connection events performed, paired with `Except.error e` when a lookup
raises `KeyError` (no later statement runs in that case). -/
def PostgresCursor.init (cfg : Config) : List DBEvent × Except PyError Unit :=
  match cfgLookup cfg "HOST" with
  | none => ([], Except.error (PyError.keyError "HOST"))
  | some host =>
    match cfgLookup cfg "PORT" with
    | none => ([], Except.error (PyError.keyError "PORT"))
    | some port =>
      match cfgLookup cfg "DB" with
      | none => ([], Except.error (PyError.keyError "DB"))
      | some database =>
        match cfgLookup cfg "USER" with
        | none => ([], Except.error (PyError.keyError "USER"))
        | some user =>
          match cfgLookup cfg "PASSWORD" with
          | none => ([], Except.error (PyError.keyError "PASSWORD"))
          | some password =>
            ([DBEvent.pgConnect
                (credentialsString database user password host port) true],
             Except.ok ())

/-- `PostgresCursor.__enter__`: calls `self.connection.cursor()` and returns
the cursor; no other connection event occurs. -/
def PostgresCursor.enter : List DBEvent := [DBEvent.cursor]

/-- `PostgresCursor.__exit__`: textually identical to `SQLiteCursor.__exit__`. -/
def PostgresCursor.exit (exception : Option PyError) : List DBEvent × Bool :=
  if exception.isSome then
    ([DBEvent.rollback, DBEvent.close], false)
  else
    ([DBEvent.commit, DBEvent.close], false)

/-- Outcome of running a full `with` scope: the trace of connection events
emitted by the wrapper's own code (constructor, `__enter__`, `__exit__` —
events of the caller's body are not the wrapper's), and the exception the
caller observes after the scope (`none` for normal completion). -/
structure ScopeRun where
  wrapperTrace : List DBEvent
  result : Option PyError
deriving DecidableEq

/-- Python `with SQLiteCursor(db) as cursor: BODY` where the body finishes
with `bodyErr` (`none` = no exception).  Per the context-manager protocol the
exception propagates unless `__exit__` returns a truthy value. -/
def SQLiteCursor.runScope (db : Option String) (bodyErr : Option PyError) : ScopeRun :=
  let initEvents := SQLiteCursor.init db
  let ex := SQLiteCursor.exit bodyErr
  { wrapperTrace := initEvents ++ SQLiteCursor.enter ++ ex.1
    result := match bodyErr with
      | none => none
      | some e => if ex.2 then none else some e }

/-- Python `with PostgresCursor() as cursor: BODY` reading configuration `cfg`.
If the constructor raises (missing key), the scope is never entered and the
constructor's exception is what the caller observes. -/
def PostgresCursor.runScope (cfg : Config) (bodyErr : Option PyError) : ScopeRun :=
  match PostgresCursor.init cfg with
  | (ev, Except.error e) => { wrapperTrace := ev, result := some e }
  | (ev, Except.ok _) =>
    let ex := PostgresCursor.exit bodyErr
    { wrapperTrace := ev ++ PostgresCursor.enter ++ ex.1
      result := match bodyErr with
        | none => none
        | some e => if ex.2 then none else some e }

/-- Does this event commit the transaction? -/
def isCommit : DBEvent → Bool
  | DBEvent.commit => true
  | _ => false

/-- Does this event roll the transaction back? -/
def isRollback : DBEvent → Bool
  | DBEvent.rollback => true
  | _ => false

/-- Does this event close the connection? -/
def isClose : DBEvent → Bool
  | DBEvent.close => true
  | _ => false

/-- Does this event establish a connection (either backend)? -/
def isConnect : DBEvent → Bool
  | DBEvent.sqliteConnect _ => true
  | DBEvent.pgConnect _ _ => true
  | _ => false

/-- The subtrace of commit and close events, in order of occurrence. -/
def commitCloseOf (t : List DBEvent) : List DBEvent :=
  t.filter fun e => isCommit e || isClose e

/-- The subtrace of rollback and close events, in order of occurrence. -/
def rollbackCloseOf (t : List DBEvent) : List DBEvent :=
  t.filter fun e => isRollback e || isClose e

/-- Is `c` a word character (the `\w` class of the extraction patterns)? -/
def isWordChar (c : Char) : Bool := c.isAlphanum || c == '_'

/-- Strip `p` from the front of `s`, or fail. -/
def dropPre : List Char → List Char → Option (List Char)
  | [], s => some s
  | _ :: _, [] => none
  | p :: ps, c :: cs => if p = c then dropPre ps cs else none

/-- Strip `post` from the end of `s`, or fail. -/
def dropSuf (post s : List Char) : Option (List Char) :=
  (dropPre post.reverse s.reverse).map List.reverse

/-- A marker-extraction pattern of the shape `pre(\w+)post`: a literal part,
one capturing group of one-or-more word characters, and a literal part.  Both
extraction patterns of the source have exactly this shape. -/
structure MarkerPattern where
  pre : List Char
  post : List Char

/-- Full-match semantics of the pattern `pre(\w+)post`: the whole string is
consumed; the single group captures the middle segment, which must be one or
more word characters.  Returns the captured group, or `none` on no match. -/
def MarkerPattern.capture (m : MarkerPattern) (s : List Char) : Option (List Char) :=
  match dropPre m.pre s with
  | none => none
  | some rest =>
    match dropSuf m.post rest with
    | none => none
    | some g =>
      if g.isEmpty then none
      else if g.all isWordChar then some g else none

/-- Escape a literal character for regex text (only `(` and `)` among the
characters occurring in the source's patterns need escaping). -/
def escapeRegexChar (c : Char) : String :=
  if c = '(' ∨ c = ')' then "\\".push c else "".push c

/-- Escape a literal segment for regex text. -/
def escapeRegex (l : List Char) : String :=
  l.foldl (fun acc c => acc ++ escapeRegexChar c) ""

/-- Regex text denoted by a marker pattern: the literal parts escaped, around
the group `(\w+)`. -/
def MarkerPattern.render (m : MarkerPattern) : String :=
  escapeRegex m.pre ++ "(\\w+)" ++ escapeRegex m.post

/-- The marker pattern denoted by `SQLITE_VALUES_FORMAT`, i.e. `:(\w+)`. -/
def sqliteMarker : MarkerPattern := { pre := [':'], post := [] }

/-- The marker pattern denoted by `POSTGRES_VALUES_FORMAT`, i.e. `%\((\w+)\)s`. -/
def postgresMarker : MarkerPattern := { pre := ['%', '('], post := [')', 's'] }

/-- Does `s` start with `pat`? -/
def startsWithSeg : List Char → List Char → Bool
  | [], _ => true
  | _ :: _, [] => false
  | p :: ps, c :: cs => p == c && startsWithSeg ps cs

/-- Does `pat` occur as a contiguous segment of `s`? -/
def containsSeg (pat : List Char) : List Char → Bool
  | [] => startsWithSeg pat []
  | c :: cs => startsWithSeg pat (c :: cs) || containsSeg pat cs

/-- A complete configuration mapping, holding every required key. -/
def exampleConfig : Config :=
  [("HOST", "localhost"), ("PORT", "5432"), ("DB", "etl"),
   ("USER", "etl_user"), ("PASSWORD", "secret")]

/-- Stripping a list's own front from a concatenation leaves the tail. -/
theorem dropPre_self_append (p s : List Char) : dropPre p (p ++ s) = some s := by
  induction p with
  | nil => rfl
  | cons c cs ih => simp [dropPre, ih]

/-- Stripping a list's own back from a concatenation leaves the front. -/
theorem dropSuf_append_self (post g : List Char) : dropSuf post (g ++ post) = some g := by
  simp [dropSuf, List.reverse_append, dropPre_self_append]

/-- Shape of `PostgresCursor.__init__`: either some required key is missing and
the constructor raises its `KeyError` having performed no connection event, or
every required key is present and the constructor performs exactly one
`psycopg.connect` call. -/
theorem pgInit_shape (cfg : Config) :
    (∃ k, k ∈ requiredKeys ∧ cfgLookup cfg k = none ∧
      PostgresCursor.init cfg = ([], Except.error (PyError.keyError k))) ∨
    ((∀ k ∈ requiredKeys, (cfgLookup cfg k).isSome) ∧
      ∃ s, PostgresCursor.init cfg = ([DBEvent.pgConnect s true], Except.ok ())) := by
  unfold PostgresCursor.init
  cases hH : cfgLookup cfg "HOST" with
  | none => exact Or.inl ⟨"HOST", by decide, hH, rfl⟩
  | some host =>
  cases hP : cfgLookup cfg "PORT" with
  | none => exact Or.inl ⟨"PORT", by decide, hP, rfl⟩
  | some port =>
  cases hD : cfgLookup cfg "DB" with
  | none => exact Or.inl ⟨"DB", by decide, hD, rfl⟩
  | some database =>
  cases hU : cfgLookup cfg "USER" with
  | none => exact Or.inl ⟨"USER", by decide, hU, rfl⟩
  | some user =>
  cases hW : cfgLookup cfg "PASSWORD" with
  | none => exact Or.inl ⟨"PASSWORD", by decide, hW, rfl⟩
  | some password =>
    refine Or.inr ⟨?_, ⟨credentialsString database user password host port, rfl⟩⟩
    intro k hk
    fin_cases hk <;> simp [hH, hP, hD, hU, hW]

/-- Claim C1 (amended): for every scoped-connection wrapper whose scope exits
without an error, the wrapper's trace carries exactly one commit and exactly
one close, in the order commit first, then close.  (The frozen claim states the
opposite order, close then commit; the source's `__exit__` calls
`connection.commit()` before `connection.close()`.) -/
theorem success_scope_commits_once_then_closes (db : Option String) (cfg : Config)
    (h : (PostgresCursor.init cfg).2 = Except.ok ()) :
    ((SQLiteCursor.runScope db none).wrapperTrace.countP isCommit = 1 ∧
     (SQLiteCursor.runScope db none).wrapperTrace.countP isClose = 1 ∧
     commitCloseOf (SQLiteCursor.runScope db none).wrapperTrace =
       [DBEvent.commit, DBEvent.close]) ∧
    ((PostgresCursor.runScope cfg none).wrapperTrace.countP isCommit = 1 ∧
     (PostgresCursor.runScope cfg none).wrapperTrace.countP isClose = 1 ∧
     commitCloseOf (PostgresCursor.runScope cfg none).wrapperTrace =
       [DBEvent.commit, DBEvent.close]) := by
  constructor
  · cases db <;> exact ⟨rfl, rfl, rfl⟩
  · rcases pgInit_shape cfg with ⟨k, _, _, hinit⟩ | ⟨_, s, hinit⟩
    · rw [hinit] at h
      exact absurd h (by simp)
    · unfold PostgresCursor.runScope
      rw [hinit]
      exact ⟨rfl, rfl, rfl⟩

/-- Witness for C1's amended theorem at `db = none` and the full example
configuration. -/
theorem success_scope_commit_close_witness :
    (PostgresCursor.init exampleConfig).2 = Except.ok () ∧
    (((SQLiteCursor.runScope none none).wrapperTrace.countP isCommit = 1 ∧
      (SQLiteCursor.runScope none none).wrapperTrace.countP isClose = 1 ∧
      commitCloseOf (SQLiteCursor.runScope none none).wrapperTrace =
        [DBEvent.commit, DBEvent.close]) ∧
     ((PostgresCursor.runScope exampleConfig none).wrapperTrace.countP isCommit = 1 ∧
      (PostgresCursor.runScope exampleConfig none).wrapperTrace.countP isClose = 1 ∧
      commitCloseOf (PostgresCursor.runScope exampleConfig none).wrapperTrace =
        [DBEvent.commit, DBEvent.close])) :=
  ⟨rfl, success_scope_commits_once_then_closes none exampleConfig rfl⟩

/-- Counterexample to C1 as stated: at the concrete successful SQLite scope
`with SQLiteCursor(None)`, it is false that the close happens before the
commit (the commit-and-close subtrace is not `[close, commit]`). -/
theorem success_scope_close_before_commit_false :
    ¬ ((SQLiteCursor.runScope none none).wrapperTrace.countP isClose = 1 ∧
       (SQLiteCursor.runScope none none).wrapperTrace.countP isCommit = 1 ∧
       commitCloseOf (SQLiteCursor.runScope none none).wrapperTrace =
         [DBEvent.close, DBEvent.commit]) := by
  decide

/-- Claim C2 (amended): for every scoped-connection wrapper whose scope exits
because an error was raised inside it, the wrapper's trace carries exactly one
rollback and exactly one close and no commit, in the order rollback first,
then close.  (The frozen claim states the opposite order, close then rollback;
the source's `__exit__` calls `connection.rollback()` before
`connection.close()`.) -/
theorem error_scope_rolls_back_once_then_closes (db : Option String) (cfg : Config)
    (e : PyError) (h : (PostgresCursor.init cfg).2 = Except.ok ()) :
    ((SQLiteCursor.runScope db (some e)).wrapperTrace.countP isRollback = 1 ∧
     (SQLiteCursor.runScope db (some e)).wrapperTrace.countP isClose = 1 ∧
     (SQLiteCursor.runScope db (some e)).wrapperTrace.countP isCommit = 0 ∧
     rollbackCloseOf (SQLiteCursor.runScope db (some e)).wrapperTrace =
       [DBEvent.rollback, DBEvent.close]) ∧
    ((PostgresCursor.runScope cfg (some e)).wrapperTrace.countP isRollback = 1 ∧
     (PostgresCursor.runScope cfg (some e)).wrapperTrace.countP isClose = 1 ∧
     (PostgresCursor.runScope cfg (some e)).wrapperTrace.countP isCommit = 0 ∧
     rollbackCloseOf (PostgresCursor.runScope cfg (some e)).wrapperTrace =
       [DBEvent.rollback, DBEvent.close]) := by
  constructor
  · cases db <;> exact ⟨rfl, rfl, rfl, rfl⟩
  · rcases pgInit_shape cfg with ⟨k, _, _, hinit⟩ | ⟨_, s, hinit⟩
    · rw [hinit] at h
      exact absurd h (by simp)
    · unfold PostgresCursor.runScope
      rw [hinit]
      exact ⟨rfl, rfl, rfl, rfl⟩

/-- Witness for C2's amended theorem at `db = none`, the full example
configuration, and a concrete `ValueError`. -/
theorem error_scope_rollback_close_witness :
    (PostgresCursor.init exampleConfig).2 = Except.ok () ∧
    (((SQLiteCursor.runScope none (some (PyError.exc "ValueError" "boom"))).wrapperTrace.countP isRollback = 1 ∧
      (SQLiteCursor.runScope none (some (PyError.exc "ValueError" "boom"))).wrapperTrace.countP isClose = 1 ∧
      (SQLiteCursor.runScope none (some (PyError.exc "ValueError" "boom"))).wrapperTrace.countP isCommit = 0 ∧
      rollbackCloseOf (SQLiteCursor.runScope none (some (PyError.exc "ValueError" "boom"))).wrapperTrace =
        [DBEvent.rollback, DBEvent.close]) ∧
     ((PostgresCursor.runScope exampleConfig (some (PyError.exc "ValueError" "boom"))).wrapperTrace.countP isRollback = 1 ∧
      (PostgresCursor.runScope exampleConfig (some (PyError.exc "ValueError" "boom"))).wrapperTrace.countP isClose = 1 ∧
      (PostgresCursor.runScope exampleConfig (some (PyError.exc "ValueError" "boom"))).wrapperTrace.countP isCommit = 0 ∧
      rollbackCloseOf (PostgresCursor.runScope exampleConfig (some (PyError.exc "ValueError" "boom"))).wrapperTrace =
        [DBEvent.rollback, DBEvent.close])) :=
  ⟨rfl, error_scope_rolls_back_once_then_closes none exampleConfig
          (PyError.exc "ValueError" "boom") rfl⟩

/-- Counterexample to C2 as stated: at the concrete failing SQLite scope, it is
false that the close happens before the rollback (the rollback-and-close
subtrace is not `[close, rollback]`). -/
theorem error_scope_close_before_rollback_false :
    ¬ ((SQLiteCursor.runScope none (some (PyError.exc "ValueError" "boom"))).wrapperTrace.countP isClose = 1 ∧
       (SQLiteCursor.runScope none (some (PyError.exc "ValueError" "boom"))).wrapperTrace.countP isRollback = 1 ∧
       rollbackCloseOf (SQLiteCursor.runScope none (some (PyError.exc "ValueError" "boom"))).wrapperTrace =
         [DBEvent.close, DBEvent.rollback]) := by
  decide

/-- Claim C3: the source's resolver does NOT signal an explicit
unsupported-dialect error — for every handle of a type other than the two
supported cursor types it silently returns the absent value `None`, here
`none`.  This contradicts the resolver's own signature and docstring (which
promise an `SQLFormat`) and is the defect the spec requires fixing. -/
theorem resolver_returns_none_on_unknown_handle :
    get_sql_format (Cursor.otherHandle "str") = none ∧
    ∀ t, get_sql_format (Cursor.otherHandle t) = none :=
  ⟨rfl, fun _ => rfl⟩

/-- Claim C4: an error raised inside a wrapper's scope is observed by the
caller as the very same error value after exit-time cleanup; `__exit__`
returns a falsy value (`None`) on every path, so it never suppresses. -/
theorem scope_error_propagates_unchanged (db : Option String) (cfg : Config)
    (e : PyError) (h : (PostgresCursor.init cfg).2 = Except.ok ()) :
    (SQLiteCursor.runScope db (some e)).result = some e ∧
    (SQLiteCursor.exit (some e)).2 = false ∧
    (PostgresCursor.runScope cfg (some e)).result = some e ∧
    (PostgresCursor.exit (some e)).2 = false := by
  refine ⟨rfl, rfl, ?_, rfl⟩
  rcases pgInit_shape cfg with ⟨k, _, _, hinit⟩ | ⟨_, s, hinit⟩
  · rw [hinit] at h
    exact absurd h (by simp)
  · unfold PostgresCursor.runScope
    rw [hinit]
    rfl

/-- Witness for C4 at `db = none`, the full example configuration, and a
concrete `ValueError`. -/
theorem scope_error_propagates_witness :
    (PostgresCursor.init exampleConfig).2 = Except.ok () ∧
    ((SQLiteCursor.runScope none (some (PyError.exc "ValueError" "boom"))).result =
       some (PyError.exc "ValueError" "boom") ∧
     (SQLiteCursor.exit (some (PyError.exc "ValueError" "boom"))).2 = false ∧
     (PostgresCursor.runScope exampleConfig (some (PyError.exc "ValueError" "boom"))).result =
       some (PyError.exc "ValueError" "boom") ∧
     (PostgresCursor.exit (some (PyError.exc "ValueError" "boom"))).2 = false) :=
  ⟨rfl, scope_error_propagates_unchanged none exampleConfig
          (PyError.exc "ValueError" "boom") rfl⟩

/-- Claim C5: a configuration missing at least one required key makes
`PostgresCursor.__init__` raise the `KeyError` for a missing required key, with
no connection event performed — the failure happens before any network
connection attempt and is not deferred. -/
theorem missing_config_key_fails_before_connect (cfg : Config)
    (h : ∃ k, k ∈ requiredKeys ∧ cfgLookup cfg k = none) :
    ∃ k, k ∈ requiredKeys ∧ cfgLookup cfg k = none ∧
      PostgresCursor.init cfg = ([], Except.error (PyError.keyError k)) ∧
      (PostgresCursor.init cfg).1.countP isConnect = 0 := by
  rcases pgInit_shape cfg with ⟨k, hk, hnone, hinit⟩ | ⟨hall, s, hinit⟩
  · refine ⟨k, hk, hnone, hinit, ?_⟩
    rw [hinit]
    rfl
  · rcases h with ⟨k, hk, hnone⟩
    have hsome := hall k hk
    rw [hnone] at hsome
    exact absurd hsome (by simp)

/-- Witness for C5 at the empty configuration (a missing `.env` file). -/
theorem missing_config_key_witness :
    (∃ k, k ∈ requiredKeys ∧ cfgLookup ([] : Config) k = none) ∧
    (∃ k, k ∈ requiredKeys ∧ cfgLookup ([] : Config) k = none ∧
      PostgresCursor.init [] = ([], Except.error (PyError.keyError k)) ∧
      (PostgresCursor.init ([] : Config)).1.countP isConnect = 0) :=
  ⟨⟨"HOST", by decide, rfl⟩,
   missing_config_key_fails_before_connect [] ⟨"HOST", by decide, rfl⟩⟩

/-- Claim C6: resolving an embedded-backend handle yields the descriptor with
`copy_available = false` whose extraction pattern is the `:name` marker
pattern and whose insert template uses `:name`-style markers; resolving a
client-server handle yields the descriptor with `copy_available = true`,
the `%(name)s` marker pattern, and `%(name)s`-style insert markers. -/
theorem dialect_descriptors_fields :
    get_sql_format Cursor.sqlite3Cursor = some SQLiteFormat ∧
    SQLiteFormat.copy_available = false ∧
    SQLiteFormat.values_pattern = MarkerPattern.render sqliteMarker ∧
    containsSeg ":<column1_source>".data SQLiteFormat.insert_format.data = true ∧
    get_sql_format Cursor.psycopgCursor = some PostgresFormat ∧
    PostgresFormat.copy_available = true ∧
    PostgresFormat.values_pattern = MarkerPattern.render postgresMarker ∧
    containsSeg "%(<column1_source>)s".data PostgresFormat.insert_format.data = true :=
  ⟨rfl, rfl, rfl, by decide, rfl, rfl, rfl, by decide⟩

/-- Claim C7 (amended): for both wrappers the connection is established by the
constructor, before the scope is entered, and row materialization as a mapping
from column name to value is configured there as well; scope entry performs
only the `connection.cursor()` call and returns that cursor.  (The frozen
claim places connection establishment at scope entry; the source performs it
in `__init__`.) -/
theorem connection_established_at_construction (db : Option String) (cfg : Config)
    (h : (PostgresCursor.init cfg).2 = Except.ok ()) :
    (∃ s, SQLiteCursor.init db = [DBEvent.sqliteConnect s, DBEvent.setRowFactory]) ∧
    SQLiteCursor.enter = [DBEvent.cursor] ∧
    (∃ s, (PostgresCursor.init cfg).1 = [DBEvent.pgConnect s true]) ∧
    PostgresCursor.enter = [DBEvent.cursor] := by
  refine ⟨?_, rfl, ?_, rfl⟩
  · cases db with
    | none => exact ⟨":memory:", rfl⟩
    | some d => exact ⟨d, rfl⟩
  · rcases pgInit_shape cfg with ⟨k, _, _, hinit⟩ | ⟨_, s, hinit⟩
    · rw [hinit] at h
      exact absurd h (by simp)
    · exact ⟨s, by rw [hinit]⟩

/-- Witness for C7's amended theorem at `db = none` and the full example
configuration. -/
theorem connection_at_construction_witness :
    (PostgresCursor.init exampleConfig).2 = Except.ok () ∧
    ((∃ s, SQLiteCursor.init none = [DBEvent.sqliteConnect s, DBEvent.setRowFactory]) ∧
     SQLiteCursor.enter = [DBEvent.cursor] ∧
     (∃ s, (PostgresCursor.init exampleConfig).1 = [DBEvent.pgConnect s true]) ∧
     PostgresCursor.enter = [DBEvent.cursor]) :=
  ⟨rfl, connection_established_at_construction none exampleConfig rfl⟩

/-- Counterexample to C7 as stated: constructing `SQLiteCursor(None)` without
entering its scope already performs a connection event, so it is false that
construction establishes no connection. -/
theorem construction_without_entry_connects :
    ¬ ((SQLiteCursor.init none).countP isConnect = 0) := by
  decide

/-- Claim C8: for every nonempty identifier made only of word characters, the
embedded dialect's extraction pattern `:(\w+)` fully matches `:identifier`
capturing the identifier, and the client-server dialect's extraction pattern
`%\((\w+)\)s` fully matches `%(identifier)s` capturing the identifier; the two
marker patterns render to exactly the source's pattern strings. -/
theorem values_pattern_extracts_identifier (s : List Char)
    (h1 : s ≠ []) (h2 : ∀ c ∈ s, isWordChar c = true) :
    sqliteMarker.capture (':' :: s) = some s ∧
    postgresMarker.capture ('%' :: '(' :: (s ++ [')', 's'])) = some s ∧
    MarkerPattern.render sqliteMarker = SQLITE_VALUES_FORMAT ∧
    MarkerPattern.render postgresMarker = POSTGRES_VALUES_FORMAT := by
  have hall : s.all isWordChar = true := List.all_eq_true.mpr h2
  have hne : s.isEmpty = false := by
    cases s with
    | nil => exact absurd rfl h1
    | cons a as => rfl
  refine ⟨?_, ?_, rfl, rfl⟩
  · show MarkerPattern.capture _ _ = _
    unfold MarkerPattern.capture
    have h3 : dropPre sqliteMarker.pre (':' :: s) = some s := by
      simpa using dropPre_self_append [':'] s
    have h4 : dropSuf sqliteMarker.post s = some s := by
      simpa using dropSuf_append_self [] s
    simp [h3, h4, hne, hall]
  · show MarkerPattern.capture _ _ = _
    unfold MarkerPattern.capture
    have h3 : dropPre postgresMarker.pre ('%' :: '(' :: (s ++ [')', 's'])) =
        some (s ++ [')', 's']) := by
      simpa using dropPre_self_append ['%', '('] (s ++ [')', 's'])
    have h4 : dropSuf postgresMarker.post (s ++ [')', 's']) = some s := by
      simpa using dropSuf_append_self [')', 's'] s
    simp [h3, h4, hne, hall]

/-- Witness for C8 at the concrete identifier "id". -/
theorem values_pattern_extracts_witness :
    (['i', 'd'] ≠ ([] : List Char)) ∧
    (∀ c ∈ ['i', 'd'], isWordChar c = true) ∧
    (sqliteMarker.capture (':' :: ['i', 'd']) = some ['i', 'd'] ∧
     postgresMarker.capture ('%' :: '(' :: (['i', 'd'] ++ [')', 's'])) = some ['i', 'd'] ∧
     MarkerPattern.render sqliteMarker = SQLITE_VALUES_FORMAT ∧
     MarkerPattern.render postgresMarker = POSTGRES_VALUES_FORMAT) :=
  ⟨by decide, by decide,
   values_pattern_extracts_identifier ['i', 'd'] (by decide) (by decide)⟩

/-- Claim C9: every descriptor the resolver actually produces satisfies the
invariant that `copy_available` holds exactly when `copy_format` differs from
the sentinel `NO_COPY_FORMAT`. -/
theorem copy_flag_iff_copy_format_not_sentinel (c : Cursor) (f : SQLFormat)
    (h : get_sql_format c = some f) :
    f.copy_available = true ↔ f.copy_format ≠ NO_COPY_FORMAT := by
  cases c with
  | sqlite3Cursor =>
    have hf : SQLiteFormat = f := Option.some.inj h
    rw [← hf]
    decide
  | psycopgCursor =>
    have hf : PostgresFormat = f := Option.some.inj h
    rw [← hf]
    decide
  | otherHandle t => exact Option.noConfusion h

/-- Witness for C9 at the client-server cursor. -/
theorem copy_flag_invariant_witness :
    (get_sql_format Cursor.psycopgCursor = some PostgresFormat) ∧
    (PostgresFormat.copy_available = true ↔ PostgresFormat.copy_format ≠ NO_COPY_FORMAT) :=
  ⟨rfl, copy_flag_iff_copy_format_not_sentinel Cursor.psycopgCursor PostgresFormat rfl⟩

/-- Claim C10: constructing `SQLiteCursor` with no path is the same as
constructing it with the explicit path ":memory:": the constructor traces are
equal, and every subsequent scope run behaves identically. -/
theorem default_db_is_memory_db :
    SQLiteCursor.init none = SQLiteCursor.init (some ":memory:") ∧
    ∀ bodyErr : Option PyError,
      SQLiteCursor.runScope none bodyErr = SQLiteCursor.runScope (some ":memory:") bodyErr :=
  ⟨rfl, fun _ => rfl⟩
